import Mathlib

/-!
Verification of the macro-calculation and prompt-assembly logic of the
meal-planner application (`src/app.py`).

The numeric computations of `calculate_macros` are embedded over `ℚ`
(exact rational arithmetic standing for Python's arithmetic).  Strings
are embedded as Lean `String`s.  Python's `dict[key]` lookup, which
raises `KeyError` on a missing key, is embedded as an `Option`-valued
lookup, so `calculate_macros` returns `Option MacroResult` and yields
`none` exactly when the Python code would raise.  Python's `str.upper`
is embedded as a character-wise map (`str_upper`); the inputs of
interest are ASCII.  The `try/except` block of `main` is embedded by
passing the outcome of the external text-generation call as an explicit
`Except` value to `render_submission`.
-/

namespace MealPlanner

/-- MacroResult dataclass from `src/app.py` (lines 42-52): the computed
energy and macro targets. -/
structure MacroResult where
  rmr : ℚ
  tdee : ℚ
  target_kcal : ℚ
  protein_g : ℚ
  fat_g : ℚ
  carbs_g : ℚ
  protein_pct : ℚ
  fat_pct : ℚ
  carbs_pct : ℚ
  deriving DecidableEq, Repr

/-- Embedding of Python's `str.upper()` as used on the `sex` argument
(line 72): uppercase every character. -/
def str_upper (s : String) : String :=
  String.mk (s.data.map Char.toUpper)

/-- The `deficit_map` dictionary of `calculate_macros` (lines 81-85) as an
`Option`-valued lookup; `none` models the `KeyError` raised by the
subscript `deficit_map[intensity]` (line 86) on any other key. -/
def deficit_map (intensity : String) : Option ℚ :=
  if intensity = "Gentle" then some 250
  else if intensity = "Moderate" then some 500
  else if intensity = "Aggressive" then some 750
  else none

/-- The `calculate_macros` function of `src/app.py` (lines 57-122),
embedded over `ℚ`.  Returns `none` exactly when the deficit-map lookup
would raise `KeyError`. -/
def calculate_macros (sex : String) (age : ℤ) (height_cm : ℚ)
    (weight_current_kg : ℚ) (weight_goal_kg : ℚ) (weight_source : String)
    (activity_factor : ℚ) (intensity : String)
    (protein_g_per_kg : ℚ := 1.4) (fat_g_per_kg : ℚ := 0.7) :
    Option MacroResult :=
  let rmr : ℚ :=
    if str_upper sex = "M" then
      10 * weight_current_kg + 6.25 * height_cm - 5 * age + 5
    else
      10 * weight_current_kg + 6.25 * height_cm - 5 * age - 161
  let tdee := rmr * activity_factor
  match deficit_map intensity with
  | none => none
  | some deficit =>
    let target_kcal := max (tdee - deficit) 1200
    let weight_for_macros :=
      if weight_source = "Current" then weight_current_kg else weight_goal_kg
    let protein_g := weight_for_macros * protein_g_per_kg
    let fat_g := weight_for_macros * fat_g_per_kg
    let kcal_protein := protein_g * 4
    let kcal_fat := fat_g * 9
    let kcal_carbs := max (target_kcal - (kcal_protein + kcal_fat)) 0
    let carbs_g := if kcal_carbs > 0 then kcal_carbs / 4 else 0
    let protein_pct := if target_kcal > 0 then kcal_protein / target_kcal * 100 else 0
    let fat_pct := if target_kcal > 0 then kcal_fat / target_kcal * 100 else 0
    let carbs_pct := if target_kcal > 0 then kcal_carbs / target_kcal * 100 else 0
    some {
      rmr := rmr
      tdee := tdee
      target_kcal := target_kcal
      protein_g := protein_g
      fat_g := fat_g
      carbs_g := carbs_g
      protein_pct := protein_pct
      fat_pct := fat_pct
      carbs_pct := carbs_pct
    }

/-- Round a rational to the nearest integer, ties to even: the rounding
used by Python's fixed-point float formatting (`:.0f`, `:.2f`). -/
def round_half_even (q : ℚ) : ℤ :=
  let f := ⌊q⌋
  let r := q - f
  if r < 1 / 2 then f
  else if r > 1 / 2 then f + 1
  else if f % 2 = 0 then f else f + 1

/-- Python's `f"{x:.0f}"`: the value rounded to a whole number, rendered
with no decimal point. -/
def fmt_fixed0 (q : ℚ) : String :=
  toString (round_half_even q)

/-- Render a natural number below 100 as exactly two decimal digits. -/
def two_digits (n : ℕ) : String :=
  String.mk [Nat.digitChar (n / 10 % 10), Nat.digitChar (n % 10)]

/-- Python's `f"{x:.2f}"`: the value rounded to hundredths, rendered with
a decimal point and exactly two fractional digits. -/
def fmt_fixed2 (q : ℚ) : String :=
  let cents := round_half_even (q * 100)
  let sign := if cents < 0 then "-" else ""
  let n := cents.natAbs
  sign ++ toString (n / 100) ++ "." ++ two_digits (n % 100)

/-- Python's `a or b` applied to strings (lines 161-164): the empty
string is falsy, so an empty field is replaced by the default. -/
def py_or (s default : String) : String :=
  if s = "" then default else s

/-- The `lang_note` selection of `build_mealplan_prompt` (lines 135-145):
the Spanish directive for `language == "Spanish"`, the English directive
for every other value. -/
def lang_note (language : String) : String :=
  if language = "Spanish" then
    "IMPORTANT: Responde TODO en español, incluyendo encabezados, etiquetas y descripciones. Usa un estilo claro y fácil de entender para pacientes."
  else
    "IMPORTANT: Respond entirely in English. Use a clear, patient-friendly style."

/-- The `build_mealplan_prompt` function of `src/app.py` (lines 127-193):
the f-string template with the language note, the rounded macro targets,
and the verbatim constraint fields interpolated. -/
def build_mealplan_prompt (macros : MacroResult) (allergies : String)
    (dislikes : String) (preferred_store : String) (weekly_budget : ℚ)
    (language : String) : String :=
  "\n" ++ lang_note language ++
  "\n\nYou are a registered dietitian and meal-planning assistant.\n\nCreate a 7-day meal plan (breakfast, lunch, dinner, and 1–2 snacks per day)\nfor a single adult based on the following macro targets:\n\n- Daily calories: " ++
  fmt_fixed0 macros.target_kcal ++
  " kcal\n- Protein: " ++
  fmt_fixed0 macros.protein_g ++
  " g/day\n- Carbohydrates: " ++
  fmt_fixed0 macros.carbs_g ++
  " g/day\n- Fats: " ++
  fmt_fixed0 macros.fat_g ++
  " g/day\n\nCONSTRAINTS:\n- Allergies / must AVOID: " ++
  py_or allergies "none specified" ++
  "\n- Foods to avoid / dislikes: " ++
  py_or dislikes "none specified" ++
  "\n- Weekly grocery budget: $" ++
  fmt_fixed2 weekly_budget ++
  " for all 7 days\n- Preferred grocery store or market: " ++
  py_or preferred_store "generic US supermarket" ++
  "\n- Use foods that are realistically available at that store.\n- Keep recipes simple and realistic for a busy person.\n- Reuse ingredients across meals to save cost and reduce waste.\n- Keep daily totals reasonably close to the macro targets.\n- Assume typical adult portion sizes; you may approximate macros.\n\nOUTPUT FORMAT (plain text, no markdown tables):\nDay 1\n- Breakfast: ...\n  Approx: X kcal, P: Y g, C: Z g, F: W g\n- Snack: ...\n- Lunch: ...\n- Snack: ...\n- Dinner: ...\n\nRepeat for Days 1–7.\n\nAt the end, include:\n1) A rough estimated daily calorie and macro summary per day.\n2) A rough estimated daily and weekly cost.\n3) One combined grocery list grouped by category:\n   - Produce\n   - Protein\n   - Dairy\n   - Grains / Starches\n   - Pantry\n   - Frozen\n   - Other.\n"

/-- Substring containment, used to state that a prompt or message embeds
a given piece of text verbatim. -/
def contains_str (s sub : String) : Prop :=
  ∃ pre post, s = pre ++ sub ++ post

/-- What the submitted branch of `main` (lines 341-397) leaves on screen:
the macro metrics (displayed before the try-block), and either the plan
text with its download button or the error banner. -/
structure SubmissionView where
  shown_macros : MacroResult
  shown_plan : Option String
  shown_error : Option String
  deriving Repr

/-- The submitted branch of `main` after `calculate_macros` has run
(lines 355-397): the macros are displayed unconditionally; the external
text-generation call sits inside `try/except`, modelled here by an
explicit `Except` outcome.  On success the plan text is displayed; on an
exception `e` the code displays `f"Error generating meal plan: {e}"`
and no plan text. -/
def render_submission (macros : MacroResult)
    (gen_result : Except String String) : SubmissionView :=
  match gen_result with
  | Except.ok plan_text =>
    { shown_macros := macros, shown_plan := some plan_text, shown_error := none }
  | Except.error e =>
    { shown_macros := macros, shown_plan := none,
      shown_error := some ("Error generating meal plan: " ++ e) }

/-- The exact output of `calculate_macros` on the spec's worked example
(sex "M", age 30, height 170, current weight 70, goal weight 65,
weight source "Current", activity 1.375, intensity "Moderate",
ratios 1.4 and 0.7). -/
def example_result_current : MacroResult :=
  { rmr := 3235/2, tdee := 35585/16, target_kcal := 27585/16,
    protein_g := 98, fat_g := 49, carbs_g := 14257/64,
    protein_pct := 125440/5517, fat_pct := 15680/613, carbs_pct := 285140/5517 }

/-- The exact output of `calculate_macros` on the same example with the
weight source switched to "Goal". -/
def example_result_goal : MacroResult :=
  { rmr := 3235/2, tdee := 35585/16, target_kcal := 27585/16,
    protein_g := 91, fat_g := 91/2, carbs_g := 15209/64,
    protein_pct := 116480/5517, fat_pct := 14560/613, carbs_pct := 304180/5517 }

/-- The exact output of `calculate_macros` on a valid input whose protein
and fat energy exceed the target calories (sex "F", age 30, height 170,
current weight 70, goal weight 300, weight source "Goal", activity 1.2,
intensity "Aggressive", ratios 2.5 and 1.5): carbs clamp to 0 and the
percentage fields sum to 587.5. -/
def example_result_clamped : MacroResult :=
  { rmr := 2903/2, tdee := 8709/5, target_kcal := 1200,
    protein_g := 750, fat_g := 450, carbs_g := 0,
    protein_pct := 250, fat_pct := 675/2, carbs_pct := 0 }

section Helpers

theorem deficit_map_Gentle : deficit_map "Gentle" = some 250 := by decide

theorem deficit_map_Moderate : deficit_map "Moderate" = some 500 := by decide

theorem deficit_map_Aggressive : deficit_map "Aggressive" = some 750 := by decide

theorem str_upper_M : str_upper "M" = "M" := by decide

theorem str_upper_F : str_upper "F" = "F" := by decide

theorem ne_F_M : ("F" : String) ≠ "M" := by decide

theorem ne_Goal_Current : ("Goal" : String) ≠ "Current" := by decide

/-- Unfolding lemma for `calculate_macros` when the intensity is a key of
the deficit map: the result record, with the rmr, reference weight and
target abbreviated by the equations `hR`, `hW`, `hT`. -/
theorem calculate_macros_eq {sex : String} {age : ℤ} {height_cm wc wg : ℚ}
    {ws : String} {af : ℚ} {i : String} {pr fr : ℚ} {d : ℚ}
    (hd : deficit_map i = some d) (R W T : ℚ)
    (hR : R = if str_upper sex = "M" then 10 * wc + 6.25 * height_cm - 5 * age + 5
              else 10 * wc + 6.25 * height_cm - 5 * age - 161)
    (hW : W = if ws = "Current" then wc else wg)
    (hT : T = max (R * af - d) 1200) :
    calculate_macros sex age height_cm wc wg ws af i pr fr = some {
      rmr := R
      tdee := R * af
      target_kcal := T
      protein_g := W * pr
      fat_g := W * fr
      carbs_g := if max (T - (W * pr * 4 + W * fr * 9)) 0 > 0
                 then max (T - (W * pr * 4 + W * fr * 9)) 0 / 4 else 0
      protein_pct := if T > 0 then W * pr * 4 / T * 100 else 0
      fat_pct := if T > 0 then W * fr * 9 / T * 100 else 0
      carbs_pct := if T > 0 then max (T - (W * pr * 4 + W * fr * 9)) 0 / T * 100 else 0
    } := by
  subst hR hW hT
  simp only [calculate_macros, hd]

theorem calc_example_current :
    calculate_macros "M" 30 170 70 65 "Current" 1.375 "Moderate" 1.4 0.7 =
      some example_result_current := by
  norm_num [calculate_macros, deficit_map_Moderate, str_upper_M, example_result_current]

theorem calc_example_goal :
    calculate_macros "M" 30 170 70 65 "Goal" 1.375 "Moderate" 1.4 0.7 =
      some example_result_goal := by
  norm_num [calculate_macros, deficit_map_Moderate, str_upper_M, ne_Goal_Current,
    example_result_goal]

theorem calc_example_clamped :
    calculate_macros "F" 30 170 70 300 "Goal" 1.2 "Aggressive" 2.5 1.5 =
      some example_result_clamped := by
  norm_num [calculate_macros, deficit_map_Aggressive, str_upper_F, ne_F_M,
    ne_Goal_Current, example_result_clamped]

/-- Field-wise specification of a successful `calculate_macros` run:
every field of the result, written in terms of the inputs and of the
result's own earlier fields, exactly as computed on lines 71-110 of
`src/app.py`. -/
theorem calculate_macros_spec {sex : String} {age : ℤ} {height_cm wc wg : ℚ}
    {ws : String} {af : ℚ} {i : String} {pr fr d : ℚ} {r : MacroResult}
    (hd : deficit_map i = some d)
    (hr : calculate_macros sex age height_cm wc wg ws af i pr fr = some r) :
    ∃ R W : ℚ,
      R = (if str_upper sex = "M" then 10 * wc + 6.25 * height_cm - 5 * age + 5
           else 10 * wc + 6.25 * height_cm - 5 * age - 161) ∧
      W = (if ws = "Current" then wc else wg) ∧
      r.rmr = R ∧
      r.tdee = R * af ∧
      r.target_kcal = max (R * af - d) 1200 ∧
      r.protein_g = W * pr ∧
      r.fat_g = W * fr ∧
      r.carbs_g = (if max (r.target_kcal - (r.protein_g * 4 + r.fat_g * 9)) 0 > 0
                   then max (r.target_kcal - (r.protein_g * 4 + r.fat_g * 9)) 0 / 4
                   else 0) ∧
      r.protein_pct = (if r.target_kcal > 0
                       then r.protein_g * 4 / r.target_kcal * 100 else 0) ∧
      r.fat_pct = (if r.target_kcal > 0
                   then r.fat_g * 9 / r.target_kcal * 100 else 0) ∧
      r.carbs_pct = (if r.target_kcal > 0
                     then max (r.target_kcal - (r.protein_g * 4 + r.fat_g * 9)) 0
                          / r.target_kcal * 100
                     else 0) := by
  rw [calculate_macros_eq hd _ _ _ rfl rfl rfl] at hr
  obtain rfl := Option.some.inj hr
  exact ⟨_, _, rfl, rfl, rfl, rfl, rfl, rfl, rfl, rfl, rfl, rfl, rfl⟩

end Helpers

/-- C1: for every numerically valid input with an intensity in the
deficit map, the `target_kcal` of the result of `calculate_macros`
equals `max (tdee - deficit) 1200`, and is therefore at least 1200, for
every intensity and every activity factor. -/
theorem target_kcal_is_floored_max
    (sex : String) (age : ℤ) (height_cm wc wg : ℚ) (ws : String)
    (af : ℚ) (i : String) (pr fr d : ℚ) (r : MacroResult)
    (hd : deficit_map i = some d)
    (hr : calculate_macros sex age height_cm wc wg ws af i pr fr = some r) :
    r.target_kcal = max (r.tdee - d) 1200 ∧ 1200 ≤ r.target_kcal := by
  rw [calculate_macros_eq hd _ _ _ rfl rfl rfl] at hr
  obtain rfl := Option.some.inj hr
  exact ⟨rfl, le_max_right _ _⟩

/-- Witness for C1 at the worked example input. -/
theorem target_kcal_is_floored_max_witness :
    example_result_current.target_kcal = max (example_result_current.tdee - 500) 1200 ∧
    1200 ≤ example_result_current.target_kcal :=
  target_kcal_is_floored_max "M" 30 170 70 65 "Current" 1.375 "Moderate" 1.4 0.7 500
    example_result_current deficit_map_Moderate calc_example_current

/-- C10: `calculate_macros` succeeds (returns `some`, raising no
exception) precisely for the three intensity keys "Gentle", "Moderate",
"Aggressive"; for any other intensity the deficit-map lookup fails (the
Python code raises `KeyError`), modelled by `none`. -/
theorem calculate_macros_isSome_iff_intensity_valid
    (sex : String) (age : ℤ) (height_cm wc wg : ℚ) (ws : String)
    (af : ℚ) (i : String) (pr fr : ℚ) :
    (calculate_macros sex age height_cm wc wg ws af i pr fr).isSome = true ↔
      (i = "Gentle" ∨ i = "Moderate" ∨ i = "Aggressive") := by
  have hiff : (deficit_map i).isSome = true ↔
      (i = "Gentle" ∨ i = "Moderate" ∨ i = "Aggressive") := by
    unfold deficit_map
    split_ifs with h1 h2 h3 <;> simp_all
  rw [← hiff]
  unfold calculate_macros
  cases h : deficit_map i <;> simp [h]

/-- C2 (amended): for every valid input, `target_kcal` is positive (so
the all-zero percentage branch for `target_kcal = 0` is unreachable and
no division by zero occurs), and the three percentage fields sum to
exactly 100 whenever the protein and fat energy together do not exceed
`target_kcal`. -/
theorem pct_sum_100_when_not_clamped
    (sex : String) (age : ℤ) (height_cm wc wg : ℚ) (ws : String)
    (af : ℚ) (i : String) (pr fr d : ℚ) (r : MacroResult)
    (hd : deficit_map i = some d)
    (hr : calculate_macros sex age height_cm wc wg ws af i pr fr = some r) :
    0 < r.target_kcal ∧
    (r.protein_g * 4 + r.fat_g * 9 ≤ r.target_kcal →
      r.protein_pct + r.fat_pct + r.carbs_pct = 100) := by
  obtain ⟨R, W, hR, hW, hrmr, htdee, hT, hpg, hfg, hcg, hpp, hfp, hcp⟩ :=
    calculate_macros_spec hd hr
  have hTpos : 0 < r.target_kcal := by
    rw [hT]
    exact lt_of_lt_of_le (by norm_num) (le_max_right _ _)
  refine ⟨hTpos, fun hle => ?_⟩
  have hne : r.target_kcal ≠ 0 := ne_of_gt hTpos
  have hmax : max (r.target_kcal - (r.protein_g * 4 + r.fat_g * 9)) 0 =
      r.target_kcal - (r.protein_g * 4 + r.fat_g * 9) :=
    max_eq_left (sub_nonneg.2 hle)
  rw [hpp, hfp, hcp, if_pos hTpos, if_pos hTpos, if_pos hTpos, hmax]
  field_simp
  ring

/-- Witness for the amended C2 at the worked example input, where the
protein and fat energy (833 kcal) stay below the target. -/
theorem pct_sum_100_when_not_clamped_witness :
    (0 < example_result_current.target_kcal ∧
      (example_result_current.protein_g * 4 + example_result_current.fat_g * 9 ≤
          example_result_current.target_kcal →
        example_result_current.protein_pct + example_result_current.fat_pct +
          example_result_current.carbs_pct = 100)) ∧
    example_result_current.protein_g * 4 + example_result_current.fat_g * 9 ≤
      example_result_current.target_kcal :=
  ⟨pct_sum_100_when_not_clamped "M" 30 170 70 65 "Current" 1.375 "Moderate"
      1.4 0.7 500 example_result_current deficit_map_Moderate calc_example_current,
    by norm_num [example_result_current]⟩

/-- Counterexample to C2 as stated: a valid input (all fields inside the
documented ranges) on which `target_kcal` is positive yet the three
percentage fields sum to 587.5, far outside any rounding tolerance of
100, because the percentages are computed from the unclamped protein and
fat energies. -/
theorem pct_sum_100_counterexample :
    calculate_macros "F" 30 170 70 300 "Goal" 1.2 "Aggressive" 2.5 1.5 =
      some example_result_clamped ∧
    0 < example_result_clamped.target_kcal ∧
    example_result_clamped.protein_pct + example_result_clamped.fat_pct +
      example_result_clamped.carbs_pct = 587.5 ∧
    (587.5 : ℚ) ≠ 100 :=
  ⟨calc_example_clamped, by norm_num [example_result_clamped],
    by norm_num [example_result_clamped], by norm_num⟩

/-- C3: for every valid input, `carbs_g` is never negative; it is
exactly 0 whenever protein energy plus fat energy reaches the target,
and otherwise equals the remaining energy divided by 4; the protein and
fat grams themselves always stay `reference-weight × ratio`, unreduced. -/
theorem carbs_g_nonneg_and_clamped
    (sex : String) (age : ℤ) (height_cm wc wg : ℚ) (ws : String)
    (af : ℚ) (i : String) (pr fr d : ℚ) (r : MacroResult)
    (hd : deficit_map i = some d)
    (hr : calculate_macros sex age height_cm wc wg ws af i pr fr = some r) :
    0 ≤ r.carbs_g ∧
    (r.target_kcal ≤ r.protein_g * 4 + r.fat_g * 9 → r.carbs_g = 0) ∧
    (r.protein_g * 4 + r.fat_g * 9 < r.target_kcal →
      r.carbs_g = (r.target_kcal - (r.protein_g * 4 + r.fat_g * 9)) / 4) ∧
    r.protein_g = (if ws = "Current" then wc else wg) * pr ∧
    r.fat_g = (if ws = "Current" then wc else wg) * fr := by
  obtain ⟨R, W, hR, hW, hrmr, htdee, hT, hpg, hfg, hcg, hpp, hfp, hcp⟩ :=
    calculate_macros_spec hd hr
  refine ⟨?_, ?_, ?_, by rw [hpg, hW], by rw [hfg, hW]⟩
  · rw [hcg]
    split_ifs with h
    · exact div_nonneg h.le (by norm_num)
    · exact le_refl 0
  · intro hge
    have hmax : max (r.target_kcal - (r.protein_g * 4 + r.fat_g * 9)) 0 = 0 :=
      max_eq_right (sub_nonpos.2 hge)
    rw [hcg, hmax]
    simp
  · intro hlt
    have hmax : max (r.target_kcal - (r.protein_g * 4 + r.fat_g * 9)) 0 =
        r.target_kcal - (r.protein_g * 4 + r.fat_g * 9) :=
      max_eq_left (sub_nonneg.2 hlt.le)
    have hpos : max (r.target_kcal - (r.protein_g * 4 + r.fat_g * 9)) 0 > 0 := by
      rw [hmax]
      exact sub_pos.2 hlt
    rw [hcg, if_pos hpos, hmax]

/-- Witness for C3 at the worked example input (carb energy positive
there, so the non-clamped branch is exercised). -/
theorem carbs_g_nonneg_and_clamped_witness :
    (0 ≤ example_result_current.carbs_g ∧
      (example_result_current.target_kcal ≤
          example_result_current.protein_g * 4 + example_result_current.fat_g * 9 →
        example_result_current.carbs_g = 0) ∧
      (example_result_current.protein_g * 4 + example_result_current.fat_g * 9 <
          example_result_current.target_kcal →
        example_result_current.carbs_g =
          (example_result_current.target_kcal -
            (example_result_current.protein_g * 4 + example_result_current.fat_g * 9)) / 4) ∧
      example_result_current.protein_g = (if "Current" = "Current" then (70:ℚ) else 65) * 1.4 ∧
      example_result_current.fat_g = (if "Current" = "Current" then (70:ℚ) else 65) * 0.7) ∧
    example_result_current.protein_g * 4 + example_result_current.fat_g * 9 <
      example_result_current.target_kcal :=
  ⟨carbs_g_nonneg_and_clamped "M" 30 170 70 65 "Current" 1.375 "Moderate"
      1.4 0.7 500 example_result_current deficit_map_Moderate calc_example_current,
    by norm_num [example_result_current]⟩

/-- Counterexample to C4 as stated: on the spec's worked example input
the code returns rmr = 1617.5 (= 10·70 + 6.25·170 − 5·30 + 5), not the
1706.5 the spec's arithmetic claims. -/
theorem example_rmr_counterexample :
    calculate_macros "M" 30 170 70 65 "Current" 1.375 "Moderate" 1.4 0.7 =
      some example_result_current ∧
    example_result_current.rmr = 1617.5 ∧
    (1617.5 : ℚ) ≠ 1706.5 :=
  ⟨calc_example_current, by norm_num [example_result_current], by norm_num⟩

/-- C4 (amended): `calculate_macros` computes the Mifflin-St Jeor rmr
(+5 for "M" after upper-casing, −161 otherwise), always from the current
weight regardless of the weight-source selector, and tdee = rmr ×
activity factor; on the worked example input (sex "M", age 30, height
170, current weight 70, activity 1.375, intensity "Moderate") it returns
rmr = 1617.5, tdee = 2224.0625 and target_kcal = 1724.0625. -/
theorem rmr_tdee_formula_and_example
    (sex : String) (age : ℤ) (height_cm wc wg : ℚ) (ws : String)
    (af : ℚ) (i : String) (pr fr d : ℚ) (r : MacroResult)
    (hd : deficit_map i = some d)
    (hr : calculate_macros sex age height_cm wc wg ws af i pr fr = some r) :
    (r.rmr = if str_upper sex = "M" then 10 * wc + 6.25 * height_cm - 5 * age + 5
             else 10 * wc + 6.25 * height_cm - 5 * age - 161) ∧
    r.tdee = r.rmr * af ∧
    (calculate_macros "M" 30 170 70 65 "Current" 1.375 "Moderate" 1.4 0.7 =
      some example_result_current ∧
     example_result_current.rmr = 1617.5 ∧
     example_result_current.tdee = 2224.0625 ∧
     example_result_current.target_kcal = 1724.0625) := by
  obtain ⟨R, W, hR, hW, hrmr, htdee, hT, hpg, hfg, hcg, hpp, hfp, hcp⟩ :=
    calculate_macros_spec hd hr
  refine ⟨by rw [hrmr, hR], by rw [htdee, hrmr], calc_example_current, ?_, ?_, ?_⟩ <;>
    norm_num [example_result_current]

/-- Witness for the amended C4 at the worked example input. -/
theorem rmr_tdee_formula_and_example_witness :
    (example_result_current.rmr =
      if str_upper "M" = "M" then (10:ℚ) * 70 + 6.25 * 170 - 5 * ((30:ℤ):ℚ) + 5
      else (10:ℚ) * 70 + 6.25 * 170 - 5 * ((30:ℤ):ℚ) - 161) ∧
    example_result_current.tdee = example_result_current.rmr * 1.375 ∧
    (calculate_macros "M" 30 170 70 65 "Current" 1.375 "Moderate" 1.4 0.7 =
      some example_result_current ∧
     example_result_current.rmr = 1617.5 ∧
     example_result_current.tdee = 2224.0625 ∧
     example_result_current.target_kcal = 1724.0625) :=
  rmr_tdee_formula_and_example "M" 30 170 70 65 "Current" 1.375 "Moderate"
    1.4 0.7 500 example_result_current deficit_map_Moderate calc_example_current

/-- C5: with every other input held fixed, switching the weight source
between "Current" and "Goal" leaves rmr, tdee and target_kcal unchanged,
and the protein and fat grams are the selected reference weight times
the respective per-kg ratio. -/
theorem weight_source_affects_macros_only
    (sex : String) (age : ℤ) (height_cm wc wg : ℚ)
    (af : ℚ) (i : String) (pr fr d : ℚ) (r1 r2 : MacroResult)
    (hd : deficit_map i = some d)
    (h1 : calculate_macros sex age height_cm wc wg "Current" af i pr fr = some r1)
    (h2 : calculate_macros sex age height_cm wc wg "Goal" af i pr fr = some r2) :
    r1.rmr = r2.rmr ∧ r1.tdee = r2.tdee ∧ r1.target_kcal = r2.target_kcal ∧
    r1.protein_g = wc * pr ∧ r1.fat_g = wc * fr ∧
    r2.protein_g = wg * pr ∧ r2.fat_g = wg * fr := by
  obtain ⟨R1, W1, hR1, hW1, hrmr1, htdee1, hT1, hpg1, hfg1, _, _, _, _⟩ :=
    calculate_macros_spec hd h1
  obtain ⟨R2, W2, hR2, hW2, hrmr2, htdee2, hT2, hpg2, hfg2, _, _, _, _⟩ :=
    calculate_macros_spec hd h2
  have hRR : R1 = R2 := by rw [hR1, hR2]
  have hWc : W1 = wc := by rw [hW1, if_pos rfl]
  have hWg : W2 = wg := by rw [hW2, if_neg ne_Goal_Current]
  refine ⟨?_, ?_, ?_, ?_, ?_, ?_, ?_⟩
  · rw [hrmr1, hrmr2, hRR]
  · rw [htdee1, htdee2, hRR]
  · rw [hT1, hT2, hRR]
  · rw [hpg1, hWc]
  · rw [hfg1, hWc]
  · rw [hpg2, hWg]
  · rw [hfg2, hWg]

/-- Witness for C5 at the worked example input with current weight 70 and
goal weight 65. -/
theorem weight_source_affects_macros_only_witness :
    example_result_current.rmr = example_result_goal.rmr ∧
    example_result_current.tdee = example_result_goal.tdee ∧
    example_result_current.target_kcal = example_result_goal.target_kcal ∧
    example_result_current.protein_g = 70 * 1.4 ∧
    example_result_current.fat_g = 70 * 0.7 ∧
    example_result_goal.protein_g = 65 * 1.4 ∧
    example_result_goal.fat_g = 65 * 0.7 :=
  weight_source_affects_macros_only "M" 30 170 70 65 1.375 "Moderate" 1.4 0.7 500
    example_result_current example_result_goal deficit_map_Moderate
    calc_example_current calc_example_goal

theorem contains_str_self (s : String) : contains_str s s :=
  ⟨"", "", by simp⟩

theorem contains_str_append_right {s sub : String} (t : String)
    (h : contains_str s sub) : contains_str (s ++ t) sub := by
  obtain ⟨p, q, rfl⟩ := h
  exact ⟨p, q ++ t, by simp [String.append_assoc]⟩

theorem contains_str_append_left {s sub : String} (t : String)
    (h : contains_str s sub) : contains_str (t ++ s) sub := by
  obtain ⟨p, q, rfl⟩ := h
  exact ⟨t ++ p, q, by simp [String.append_assoc]⟩

/-- Characterisation of upper-casing a single character to "M": only 'M'
itself and lower-case 'm' do so. -/
theorem char_toNat_ofNat (n : Nat) (h : n.isValidChar) : (Char.ofNat n).toNat = n := by
  rw [Char.ofNat, dif_pos h]
  rfl

theorem char_toUpper_eq_M {c : Char} (h : c.toUpper = 'M') : c = 'M' ∨ c = 'm' := by
  have hc : Char.ofNat c.toNat = c := Char.ofNat_toNat c
  rw [Char.toUpper] at h
  by_cases hl : c.toNat ≥ 97 ∧ c.toNat ≤ 122
  · rw [if_pos hl] at h
    have hv : (Char.ofNat (c.toNat - 32)).toNat = c.toNat - 32 :=
      char_toNat_ofNat _ (Or.inl (by omega))
    rw [h] at hv
    have h77 : (77 : Nat) = c.toNat - 32 := hv
    have h109 : c.toNat = 109 := by omega
    right
    rw [← hc, h109]
  · rw [if_neg hl] at h
    left
    exact h

/-- The strings whose Python upper-casing is "M" are exactly "M" and
"m". -/
theorem str_upper_eq_M_iff (s : String) : str_upper s = "M" ↔ (s = "M" ∨ s = "m") := by
  constructor
  · intro h
    have hd : s.data.map Char.toUpper = ['M'] := congrArg String.data h
    obtain ⟨c, hcs⟩ : ∃ c, s.data = [c] := by
      rw [← List.length_eq_one]
      have := congrArg List.length hd
      simpa using this
    rw [hcs] at hd
    have hc : c.toUpper = 'M' := by simpa using hd
    rcases char_toUpper_eq_M hc with h | h
    · left
      have hdm : s.data = ['M'] := by rw [hcs, h]
      exact congrArg String.mk hdm
    · right
      have hdm : s.data = ['m'] := by rw [hcs, h]
      exact congrArg String.mk hdm
  · rintro (rfl | rfl) <;> decide

/-- C6: the Spanish language directive differs from the English one and
contains Spanish-language instruction text; every language value other
than "Spanish" (recognised or not) yields exactly the prompt built for
"English"; and the prompt always embeds its language directive. -/
theorem language_directive_selection :
    lang_note "Spanish" ≠ lang_note "English" ∧
    contains_str (lang_note "Spanish") "español" ∧
    (∀ (m : MacroResult) (al dl st : String) (b : ℚ) (l : String),
      l ≠ "Spanish" →
      build_mealplan_prompt m al dl st b l = build_mealplan_prompt m al dl st b "English") ∧
    (∀ (m : MacroResult) (al dl st : String) (b : ℚ) (l : String),
      contains_str (build_mealplan_prompt m al dl st b l) (lang_note l)) := by
  refine ⟨?_, ?_, ?_, ?_⟩
  · rw [lang_note, lang_note, if_pos rfl, if_neg (by decide)]
    decide
  · rw [lang_note, if_pos rfl]
    exact ⟨"IMPORTANT: Responde TODO en ",
      ", incluyendo encabezados, etiquetas y descripciones. Usa un estilo claro y fácil de entender para pacientes.",
      by decide⟩
  · intro m al dl st b l hl
    have hnote : lang_note l = lang_note "English" := by
      rw [lang_note, lang_note, if_neg hl, if_neg (by decide)]
    rw [build_mealplan_prompt, build_mealplan_prompt, hnote]
  · intro m al dl st b l
    rw [build_mealplan_prompt]
    repeat
      first
      | exact contains_str_append_left _ (contains_str_self _)
      | apply contains_str_append_right

/-- Witness for C6: the unrecognised language value "French" produces
exactly the English-variant prompt. -/
theorem language_directive_selection_witness :
    ("French" : String) ≠ "Spanish" ∧
    build_mealplan_prompt example_result_current "" "" "" 120 "French" =
      build_mealplan_prompt example_result_current "" "" "" 120 "English" :=
  ⟨by decide, language_directive_selection.2.2.1 example_result_current
    "" "" "" 120 "French" (by decide)⟩

/-- C7: when the plan-generation call fails with any error `e`, the
submitted branch of `main` shows an error banner embedding the
underlying error text, shows no plan text at all (nothing empty is
silently returned), and the macros computed before the call are still
the ones displayed; on success the plan text is shown unchanged. -/
theorem external_call_error_is_surfaced :
    (∀ (m : MacroResult) (e : String),
      (render_submission m (Except.error e)).shown_macros = m ∧
      (render_submission m (Except.error e)).shown_plan = none ∧
      (render_submission m (Except.error e)).shown_error =
        some ("Error generating meal plan: " ++ e) ∧
      contains_str ("Error generating meal plan: " ++ e) e) ∧
    (∀ (m : MacroResult) (t : String),
      (render_submission m (Except.ok t)).shown_macros = m ∧
      (render_submission m (Except.ok t)).shown_plan = some t ∧
      (render_submission m (Except.ok t)).shown_error = none) := by
  refine ⟨fun m e => ⟨rfl, rfl, rfl, ?_⟩, fun m t => ⟨rfl, rfl, rfl⟩⟩
  exact contains_str_append_left _ (contains_str_self _)

/-- C8: the prompt embeds the allergies, dislikes and store strings
verbatim when they are non-empty, substitutes the literal placeholder
phrases when they are empty, and embeds the weekly budget formatted with
a decimal point followed by exactly two digits. -/
theorem prompt_embeds_constraints
    (m : MacroResult) (al dl st : String) (b : ℚ) (lang : String) :
    (al ≠ "" → contains_str (build_mealplan_prompt m al dl st b lang) al) ∧
    (al = "" → contains_str (build_mealplan_prompt m al dl st b lang) "none specified") ∧
    (dl ≠ "" → contains_str (build_mealplan_prompt m al dl st b lang) dl) ∧
    (dl = "" → contains_str (build_mealplan_prompt m al dl st b lang) "none specified") ∧
    (st ≠ "" → contains_str (build_mealplan_prompt m al dl st b lang) st) ∧
    (st = "" → contains_str (build_mealplan_prompt m al dl st b lang) "generic US supermarket") ∧
    contains_str (build_mealplan_prompt m al dl st b lang) (fmt_fixed2 b) ∧
    (∃ ip fp : String, fmt_fixed2 b = ip ++ "." ++ fp ∧ fp.length = 2) := by
  have hal : contains_str (build_mealplan_prompt m al dl st b lang)
      (py_or al "none specified") := by
    rw [build_mealplan_prompt]
    repeat
      first
      | exact contains_str_append_left _ (contains_str_self _)
      | apply contains_str_append_right
  have hdl : contains_str (build_mealplan_prompt m al dl st b lang)
      (py_or dl "none specified") := by
    rw [build_mealplan_prompt]
    repeat
      first
      | exact contains_str_append_left _ (contains_str_self _)
      | apply contains_str_append_right
  have hst : contains_str (build_mealplan_prompt m al dl st b lang)
      (py_or st "generic US supermarket") := by
    rw [build_mealplan_prompt]
    repeat
      first
      | exact contains_str_append_left _ (contains_str_self _)
      | apply contains_str_append_right
  have hb : contains_str (build_mealplan_prompt m al dl st b lang) (fmt_fixed2 b) := by
    rw [build_mealplan_prompt]
    repeat
      first
      | exact contains_str_append_left _ (contains_str_self _)
      | apply contains_str_append_right
  refine ⟨fun h => ?_, fun h => ?_, fun h => ?_, fun h => ?_, fun h => ?_, fun h => ?_,
    hb, ?_⟩
  · rwa [py_or, if_neg h] at hal
  · rwa [py_or, if_pos h] at hal
  · rwa [py_or, if_neg h] at hdl
  · rwa [py_or, if_pos h] at hdl
  · rwa [py_or, if_neg h] at hst
  · rwa [py_or, if_pos h] at hst
  · exact ⟨(if round_half_even (b * 100) < 0 then "-" else "") ++
        toString ((round_half_even (b * 100)).natAbs / 100),
      two_digits ((round_half_even (b * 100)).natAbs % 100), rfl, rfl⟩

/-- Witness for C8 with a non-empty allergy string, an empty dislikes
string and a non-empty store name. -/
theorem prompt_embeds_constraints_witness :
    ("peanuts" : String) ≠ "" ∧
    contains_str (build_mealplan_prompt example_result_current "peanuts" "" "Costco" 120 "English") "peanuts" ∧
    contains_str (build_mealplan_prompt example_result_current "peanuts" "" "Costco" 120 "English") "none specified" ∧
    contains_str (build_mealplan_prompt example_result_current "peanuts" "" "Costco" 120 "English") "Costco" ∧
    (∃ ip fp : String, fmt_fixed2 120 = ip ++ "." ++ fp ∧ fp.length = 2) :=
  ⟨by decide,
    (prompt_embeds_constraints example_result_current "peanuts" "" "Costco" 120 "English").1 (by decide),
    (prompt_embeds_constraints example_result_current "peanuts" "" "Costco" 120 "English").2.2.2.1 rfl,
    (prompt_embeds_constraints example_result_current "peanuts" "" "Costco" 120 "English").2.2.2.2.1 (by decide),
    (prompt_embeds_constraints example_result_current "peanuts" "" "Costco" 120 "English").2.2.2.2.2.2.2⟩

/-- C9: any sex string whose upper-cased form is not "M" (the empty
string, "F", or any other value) silently takes the female constant
−161, only an upper-cased "M" takes the male formula, and the strings
upper-casing to "M" are exactly "M" and "m". -/
theorem sex_parsing_defaults_to_female :
    (∀ (sex : String) (age : ℤ) (height_cm wc wg : ℚ) (ws : String)
       (af : ℚ) (i : String) (pr fr d : ℚ) (r : MacroResult),
      deficit_map i = some d →
      calculate_macros sex age height_cm wc wg ws af i pr fr = some r →
      (str_upper sex ≠ "M" →
        r.rmr = 10 * wc + 6.25 * height_cm - 5 * age - 161) ∧
      (str_upper sex = "M" →
        r.rmr = 10 * wc + 6.25 * height_cm - 5 * age + 5)) ∧
    (∀ sex : String, str_upper sex = "M" ↔ (sex = "M" ∨ sex = "m")) := by
  constructor
  · intro sex age height_cm wc wg ws af i pr fr d r hd hr
    obtain ⟨R, W, hR, hW, hrmr, _, _, _, _, _, _, _, _⟩ :=
      calculate_macros_spec hd hr
    constructor
    · intro h
      rw [hrmr, hR, if_neg h]
    · intro h
      rw [hrmr, hR, if_pos h]
  · exact str_upper_eq_M_iff

/-- Witness for C9: the sex string "F" (upper-casing to "F", not "M")
gets the female constant on the clamped example input, and "m" is one of
the exactly two strings selecting the male formula. -/
theorem sex_parsing_defaults_to_female_witness :
    example_result_clamped.rmr = 10 * 70 + 6.25 * 170 - 5 * ((30:ℤ):ℚ) - 161 ∧
    (str_upper "m" = "M" ↔ (("m":String) = "M" ∨ ("m":String) = "m")) :=
  ⟨(sex_parsing_defaults_to_female.1 "F" 30 170 70 300 "Goal" 1.2 "Aggressive"
      2.5 1.5 750 example_result_clamped deficit_map_Aggressive
      calc_example_clamped).1 (by decide),
    sex_parsing_defaults_to_female.2 "m"⟩

end MealPlanner
